import Mathlib

/-! Verification of the YTC trading-assistant analysis pipeline.

Shallow embedding, over `ℚ`, of the signal-analysis and position-lifecycle
code of the repository:

* `src/agent/agents/trade_management.py`   — P&L status, breakeven and
  trailing stop adjustment (`TradeManagement.execute`);
* `src/agent/agents/entry_execution.py`    — position sizing and validation;
* `src/agent/agents/exit_execution.py`     — trade-result and exit-reason
  computation;
* `src/agent/agents/market_structure.py`   — swing detection
  (`scipy.signal.argrelextrema`, clip mode), S/R zones, current context;
* `src/agent/agents/trend_definition.py`   — neighbour-based swing
  identification;
* `src/agent/agents/strength_weakness.py`  — projection (swing-extension)
  analysis;
* `src/agent/agents/setup_scanner.py`      — setup creation (`_create_setup`),
  quality rating, breakout-bar test.

Python floats are modelled as exact rationals; the Python `round(x, n)` is
modelled by rounding `x * 10^n` to the nearest integer (`roundTo` below).
Timestamps, UUID generation and human-readable message strings carry no
analytical content and are omitted from the embedded records.
-/

/-- Embedded Python `round(x, n)`: round to `n` decimal places (nearest
integer, modelled with the Mathlib `round`; Python uses round-half-even on
binary floats, which agrees away from exact decimal ties). -/
def roundTo (n : ℕ) (x : ℚ) : ℚ := (round (x * 10 ^ n) : ℤ) / 10 ^ n

/-- Embedded `round(x, 2)` of `exit_execution.py` / `trade_management.py` etc. -/
def round2 (x : ℚ) : ℚ := roundTo 2 x

/-- Embedded `round(x, 1)` of `strength_weakness.py`. -/
def round1 (x : ℚ) : ℚ := roundTo 1 x

/-- Embedded `round(x, 4)` used for position sizes. -/
def round4 (x : ℚ) : ℚ := roundTo 4 x

/-- A price that is a whole number of cents (an integer multiple of `0.01`),
as produced by any `round(·, 2)` in the source. -/
def CentAligned (x : ℚ) : Prop := ∃ k : ℤ, x = (k : ℚ) / 100

/-! ## Trade management (`trade_management.py`)

`TradePosition` is the record created by `EntryExecution._create_position`
and consumed by `TradeManagement` and `ExitExecution` (the `open_position`
config dict).  `entry_time` is omitted (timestamp). -/

/-- The `entry_type` field: `"long"` or `"short"`. -/
inductive EntryType where
  | long
  | short
deriving DecidableEq, Repr

/-- The open-position record (`TradePosition` TypedDict of
`entry_execution.py`). -/
structure TradePosition where
  trade_id : String
  entry_price : ℚ
  stop_loss : ℚ
  take_profit : ℚ
  position_size : ℚ
  position_value : ℚ
  entry_type : EntryType
  setup_type : String
  risk_reward_ratio : ℚ
deriving DecidableEq, Repr

namespace TradeManagement

/-- Unrealized P&L of `_calculate_position_status`:
`(current_price - entry) * size` for long, negated difference for short. -/
def pnl (pos : TradePosition) (current_price : ℚ) : ℚ :=
  match pos.entry_type with
  | .long => (current_price - pos.entry_price) * pos.position_size
  | .short => (pos.entry_price - current_price) * pos.position_size

/-- Unrealized P&L percent of `_calculate_position_status`. -/
def pnlPercent (pos : TradePosition) (current_price : ℚ) : ℚ :=
  match pos.entry_type with
  | .long => (current_price - pos.entry_price) / pos.entry_price * 100
  | .short => (pos.entry_price - current_price) / pos.entry_price * 100

/-- The `position_status` label: `"winning"`, `"losing"` or `"breakeven"`. -/
def positionStatusLabel (pos : TradePosition) (current_price : ℚ) : String :=
  if pnl pos current_price > 0 then "winning"
  else if pnl pos current_price < 0 then "losing"
  else "breakeven"

/-- Flag `is_breakeven_eligible`: unrealized P&L percent at least the 1% threshold. -/
def isBreakevenEligible (pos : TradePosition) (current_price : ℚ) : Bool :=
  pnlPercent pos current_price ≥ 1

/-- Embedded `_adjust_to_breakeven`: both branches return the entry price. -/
def adjustToBreakeven (pos : TradePosition) : ℚ := pos.entry_price

/-- Embedded `_calculate_trailing_stop`: trail 2% behind price, floored (long) or
capped (short) by the current stop, then `round(·, 2)`. -/
def calculateTrailingStop (pos : TradePosition) (current_price : ℚ) : ℚ :=
  match pos.entry_type with
  | .long => round2 (max (current_price * (1 - 2 / 100)) pos.stop_loss)
  | .short => round2 (min (current_price * (1 + 2 / 100)) pos.stop_loss)

/-- The `new_stop_level` proposed by `TradeManagement.execute` for an open
position: the breakeven branch fires first (P&L% ≥ 1), else the trailing
branch fires on a winning position, else no proposal (`None`). -/
def manageNewStopLevel (pos : TradePosition) (current_price : ℚ) : Option ℚ :=
  if isBreakevenEligible pos current_price then some (adjustToBreakeven pos)
  else if positionStatusLabel pos current_price = "winning" then
    some (calculateTrailingStop pos current_price)
  else none

/-- One `manage()` cycle with its proposed stop applied to the position
(`new_stop_level` written back to `open_position["stop_loss"]`). -/
def applyManage (pos : TradePosition) (current_price : ℚ) : TradePosition :=
  { pos with stop_loss := (manageNewStopLevel pos current_price).getD pos.stop_loss }

/-- The stop levels observed across a sequence of `manage()` calls, each
applying the proposed stop: initial stop, then the stop after each call. -/
def stopTrace (pos : TradePosition) : List ℚ → List ℚ
  | [] => [pos.stop_loss]
  | p :: ps => pos.stop_loss :: stopTrace (applyManage pos p) ps

end TradeManagement

/-! ## Entry execution (`entry_execution.py`) -/

namespace EntryExecution

/-- Embedded `_calculate_position_size`: the entry price and stop come from the best
setup (`entry_zone["ideal"]`, `stop_loss["price"]`), `max_loss` is the
configured `position_size_limit` (the risk budget per trade) and
`account_balance` caps the position value at 5% of the account.
Returns the position size in base currency. -/
def calculatePositionSize (entry_price stop_loss max_loss account_balance : ℚ) : ℚ :=
  if entry_price ≤ 0 ∨ stop_loss ≤ 0 then 0
  else if entry_price = stop_loss then 0
  else
    let risk_per_unit :=
      if entry_price > stop_loss then entry_price - stop_loss
      else stop_loss - entry_price
    let position_size_eth := max_loss / risk_per_unit
    let position_value_usdt := position_size_eth * entry_price
    let max_position_value := account_balance * (5 / 100)
    let position_size_eth :=
      if position_value_usdt > max_position_value then max_position_value / entry_price
      else position_size_eth
    max 0 position_size_eth

/-- Embedded `_validate_position`: field sanity checks, stop/target ordering by
direction, and the final account-balance check on `position_value`. -/
def validatePosition (position : TradePosition) (account_balance : ℚ) : Bool :=
  if position.entry_price ≤ 0 then false
  else if position.stop_loss ≤ 0 then false
  else if position.take_profit ≤ 0 then false
  else if position.position_size ≤ 0 then false
  else if position.entry_type = .long ∧
      (position.stop_loss ≥ position.entry_price ∨
       position.take_profit ≤ position.entry_price) then false
  else if position.entry_type = .short ∧
      (position.stop_loss ≤ position.entry_price ∨
       position.take_profit ≥ position.entry_price) then false
  else if position.position_value > account_balance then false
  else true

end EntryExecution

/-! ## Exit execution (`exit_execution.py`) -/

/-- The `TradeResult` TypedDict (exit_time omitted: timestamp). -/
structure TradeResult where
  trade_id : String
  entry_price : ℚ
  exit_price : ℚ
  position_size : ℚ
  entry_type : EntryType
  exit_reason : String
  gross_pnl : ℚ
  pnl_percent : ℚ
deriving DecidableEq, Repr

namespace ExitExecution

/-- Embedded `_determine_exit_price`: clamp the current price between stop loss and
take profit by direction, falling back to the raw current price when the
clamped value is non-positive. -/
def determineExitPrice (pos : TradePosition) (current_price : ℚ) : ℚ :=
  let exit_price :=
    match pos.entry_type with
    | .long => max pos.stop_loss (min current_price pos.take_profit)
    | .short => min pos.stop_loss (max current_price pos.take_profit)
  if exit_price > 0 then exit_price else current_price

/-- Embedded `_determine_exit_reason`: an explicit external reason (anything other
than `"manual"`) wins; then take-profit proximity (strictly within `0.01`),
then stop-loss proximity, then the exit-signal flag, then `"Manual Exit"`. -/
def determineExitReason (exit_reason_cfg : String) (exit_signal : Bool)
    (take_profit stop_loss exit_price : ℚ) : String :=
  if exit_reason_cfg ≠ "manual" then exit_reason_cfg
  else if take_profit > 0 ∧ |exit_price - take_profit| < 1 / 100 then "Take Profit Hit"
  else if stop_loss > 0 ∧ |exit_price - stop_loss| < 1 / 100 then "Stop Loss Hit"
  else if exit_signal then "Exit Signal - Technical Reversal"
  else "Manual Exit"

/-- Embedded `_calculate_trade_result`: `None` on non-positive entry, size or exit
price, otherwise the rounded trade-result record. -/
def calculateTradeResult (pos : TradePosition) (exit_reason_cfg : String)
    (exit_signal : Bool) (exit_price : ℚ) : Option TradeResult :=
  if pos.entry_price ≤ 0 ∨ pos.position_size ≤ 0 ∨ exit_price ≤ 0 then none
  else
    let gross_pnl :=
      match pos.entry_type with
      | .long => (exit_price - pos.entry_price) * pos.position_size
      | .short => (pos.entry_price - exit_price) * pos.position_size
    let pnl_percent :=
      match pos.entry_type with
      | .long => (exit_price - pos.entry_price) / pos.entry_price * 100
      | .short => (pos.entry_price - exit_price) / pos.entry_price * 100
    some
      { trade_id := pos.trade_id
        entry_price := round2 pos.entry_price
        exit_price := round2 exit_price
        position_size := round4 pos.position_size
        entry_type := pos.entry_type
        exit_reason :=
          determineExitReason exit_reason_cfg exit_signal
            pos.take_profit pos.stop_loss exit_price
        gross_pnl := round2 gross_pnl
        pnl_percent := round2 pnl_percent }

end ExitExecution

/-! ## Market structure (`market_structure.py`)

Bars are rows of the OHLC dataframe.  `scipy.signal.argrelextrema` with its
default clip mode compares `data[i]` against `data[clip(i±k)]` for
`k = 1..order`, where out-of-range indices are clipped to the array bounds
(so boundary bars compare against themselves and never qualify). -/

/-- One OHLC bar (dataframe row).  `open` is a Lean keyword, hence
`open_price`. -/
structure Bar where
  open_price : ℚ
  high : ℚ
  low : ℚ
  close : ℚ
deriving DecidableEq, Repr, Inhabited

/-- A support/resistance zone (`SRZone` TypedDict); `zone_range` is the
two-element list `[level - thickness, level + thickness]`. -/
structure SRZone where
  level : ℚ
  strength : ℕ
  type : String
  touches : ℕ
  zone_range : ℚ × ℚ
deriving DecidableEq, Repr

/-- The `TrendDirection` enum. -/
inductive TrendDirection where
  | uptrend
  | downtrend
  | sideways
deriving DecidableEq, Repr

/-- The `CurrentContext` TypedDict. -/
structure CurrentContext where
  price_location : String
  nearest_resistance : ℚ
  nearest_support : ℚ
  distance_to_resistance_pct : ℚ
  distance_to_support_pct : ℚ
deriving DecidableEq, Repr

/-- The `MarketStructureOutput` TypedDict (timestamp omitted); the structural framework is
inlined as the trend/zones/prior-session fields. -/
structure MarketStructureOutput where
  analysis_complete : Bool
  trend_structure : TrendDirection
  resistance_zones : List SRZone
  support_zones : List SRZone
  prior_session : ℚ × ℚ × ℚ
  current_context : CurrentContext
deriving DecidableEq, Repr

namespace MarketStructure

/-- Index clipping of numpy take with mode clip, into `[0, len-1]`. -/
def clipIdx (len : ℕ) (i : ℤ) : ℕ := (max 0 (min i ((len : ℤ) - 1))).toNat

/-- Embedded `scipy.signal.argrelextrema(data, cmp, order=n)` in clip mode: the
indices `i` with `cmp data[i] data[clip (i±k)]` for every `k = 1..n`. -/
def relExtrema (data : List ℚ) (cmp : ℚ → ℚ → Bool) (n : ℕ) : List ℕ :=
  (List.range data.length).filter fun i =>
    (List.range n).all fun k =>
      cmp (data.getD i 0) (data.getD (clipIdx data.length ((i : ℤ) - (k + 1))) 0) &&
      cmp (data.getD i 0) (data.getD (clipIdx data.length ((i : ℤ) + (k + 1))) 0)

/-- Embedded `_detect_swing_points`: `([], [])` when fewer than `2n+1` bars, else
local maxima of the highs and local minima of the lows, as
(index, price) pairs. -/
def detectSwingPoints (df : List Bar) (n : ℕ) : List (ℕ × ℚ) × List (ℕ × ℚ) :=
  if df.length < n * 2 + 1 then ([], [])
  else
    let highs := df.map (·.high)
    let lows := df.map (·.low)
    ((relExtrema highs (fun a b => decide (a > b)) n).map fun i => (i, highs.getD i 0),
     (relExtrema lows (fun a b => decide (a < b)) n).map fun i => (i, lows.getD i 0))

/-- Embedded `_analyze_trend_structure`: sideways unless the last two swing highs and
lows both rise (uptrend) or both fall (downtrend). -/
def analyzeTrendStructure (df : List Bar) (n : ℕ) : TrendDirection :=
  if df.length < 5 then .sideways
  else
    let (swing_highs, swing_lows) := detectSwingPoints df n
    if swing_highs.length < 2 ∨ swing_lows.length < 2 then .sideways
    else
      let last_sh := (swing_highs.getD (swing_highs.length - 1) (0, 0)).2
      let prev_sh := (swing_highs.getD (swing_highs.length - 2) (0, 0)).2
      let last_sl := (swing_lows.getD (swing_lows.length - 1) (0, 0)).2
      let prev_sl := (swing_lows.getD (swing_lows.length - 2) (0, 0)).2
      if last_sh > prev_sh ∧ last_sl > prev_sl then .uptrend
      else if last_sh < prev_sh ∧ last_sl < prev_sl then .downtrend
      else .sideways

/-- The sort key of `sorted(zones, key=lambda z: z["level"])`: compare
zones by level. -/
def zoneLE (z1 z2 : SRZone) : Prop := z1.level ≤ z2.level

instance : DecidableRel zoneLE := fun z1 z2 => by
  unfold zoneLE
  infer_instance

instance : IsTotal SRZone zoneLE := ⟨fun z1 z2 => le_total z1.level z2.level⟩

instance : IsTrans SRZone zoneLE := ⟨fun _ _ _ h1 h2 => le_trans h1 h2⟩

/-- Embedded `_count_touches`: closes falling inside `[level - thickness,
level + thickness]`. -/
def countTouches (df : List Bar) (level thickness : ℚ) : ℕ :=
  (df.filter fun b =>
    decide (b.close ≥ level - thickness) && decide (b.close ≤ level + thickness)).length

/-- Embedded `_calculate_zones`: one zone per swing point among the last five, with
touch-based strength, then sorted ascending by level.  (The Python
`f"swing_{zone_type[:-1]}"` drops the final character of `"support"` /
`"resistance"`.)  `sorted` is stable; `List.insertionSort` may permute
equal-level zones differently, which no level-based property observes. -/
def calculateZones (df : List Bar) (swing_points : List (ℕ × ℚ))
    (zone_type : String) (sr_zone_thickness_pct : ℚ) : List SRZone :=
  if swing_points = [] then []
  else
    let pts := swing_points.drop (swing_points.length - 5)
    let zones := pts.map fun pt =>
      let level := pt.2
      let zone_thickness := level * (sr_zone_thickness_pct / 100)
      let touches := countTouches df level zone_thickness
      { level := round2 level
        strength := min 10 (3 + touches)
        type := "swing_" ++ zone_type.dropRight 1
        touches := touches
        zone_range := (round2 (level - zone_thickness), round2 (level + zone_thickness))
        : SRZone }
    zones.insertionSort zoneLE

/-- Embedded `_get_prior_session_levels`: (high, low, close) of the second-to-last
bar, zeros with fewer than two bars. -/
def priorSessionLevels (df : List Bar) : ℚ × ℚ × ℚ :=
  if df.length < 2 then (0, 0, 0)
  else
    let prior := df.getD (df.length - 2) default
    (round2 prior.high, round2 prior.low, round2 prior.close)

/-- Embedded `_calculate_current_context`: nearest support is the LAST (highest)
support zone, nearest resistance the FIRST (lowest) resistance zone of the
ascending-sorted lists, regardless of the current price; the location label
uses a 1% band. -/
def calculateCurrentContext (support_zones resistance_zones : List SRZone)
    (current_price : ℚ) : CurrentContext :=
  let nearest_support := ((support_zones.getLast?).map (·.level)).getD 0
  let nearest_resistance := ((resistance_zones.head?).map (·.level)).getD 0
  let dist_to_resist_pct :=
    if current_price > 0 ∧ nearest_resistance > 0 then
      (nearest_resistance - current_price) / current_price * 100
    else 0
  let dist_to_support_pct :=
    if current_price > 0 ∧ nearest_support > 0 then
      (current_price - nearest_support) / current_price * 100
    else 0
  let price_location :=
    if nearest_resistance > 0 ∧ current_price ≥ nearest_resistance * (99 / 100) then
      "at_resistance"
    else if nearest_support > 0 ∧ current_price ≤ nearest_support * (101 / 100) then
      "at_support"
    else if nearest_support > 0 ∧ nearest_resistance > 0 then "in_range"
    else "breakout"
  { price_location := price_location
    nearest_resistance := round2 nearest_resistance
    nearest_support := round2 nearest_support
    distance_to_resistance_pct := round2 dist_to_resist_pct
    distance_to_support_pct := round2 dist_to_support_pct }

/-- Embedded `_empty_output`. -/
def emptyOutput : MarketStructureOutput :=
  { analysis_complete := false
    trend_structure := .sideways
    resistance_zones := []
    support_zones := []
    prior_session := (0, 0, 0)
    current_context :=
      { price_location := "unknown"
        nearest_resistance := 0
        nearest_support := 0
        distance_to_resistance_pct := 0
        distance_to_support_pct := 0 } }

/-- Embedded `MarketStructure.execute`: empty output only when the dataframe has no
rows or the current price is non-positive. -/
def execute (df : List Bar) (min_swing_bars : ℕ) (sr_zone_thickness_pct : ℚ)
    (current_price : ℚ) : MarketStructureOutput :=
  if df.length = 0 ∨ current_price ≤ 0 then emptyOutput
  else
    let (swing_highs, swing_lows) := detectSwingPoints df min_swing_bars
    let support_zones := calculateZones df swing_lows "support" sr_zone_thickness_pct
    let resistance_zones := calculateZones df swing_highs "resistance" sr_zone_thickness_pct
    { analysis_complete := true
      trend_structure := analyzeTrendStructure df min_swing_bars
      resistance_zones := resistance_zones
      support_zones := support_zones
      prior_session := priorSessionLevels df
      current_context := calculateCurrentContext support_zones resistance_zones current_price }

end MarketStructure

/-! ## Trend definition (`trend_definition.py`) -/

/-- A bar as consumed by `TrendDefinition` (a dict read with
`.get("high" / "low" / "timestamp", ...)`). -/
structure TDBar where
  high : ℚ
  low : ℚ
  timestamp : String
deriving DecidableEq, Repr, Inhabited

/-- The `Swing` TypedDict of `trend_definition.py`; `type` is
`"swing_high"` or `"swing_low"`. -/
structure Swing where
  type : String
  price : ℚ
  timestamp : String
  bar_index : ℕ
  is_leading : Bool
  is_broken : Bool
deriving DecidableEq, Repr

namespace TrendDefinition

/-- The body of the `for i in range(1, len(bars) - 1)` loop of
`_identify_swings`: at most one swing per index, the swing-high branch
first, the swing-low branch only `elif`. -/
def classifyBar (bars : List TDBar) (i : ℕ) : Option Swing :=
  let current := bars.getD i default
  let prev := bars.getD (i - 1) default
  let next := bars.getD (i + 1) default
  if current.high > prev.high ∧ current.high > next.high then
    some { type := "swing_high", price := current.high, timestamp := current.timestamp,
           bar_index := i, is_leading := false, is_broken := false }
  else if current.low < prev.low ∧ current.low < next.low then
    some { type := "swing_low", price := current.low, timestamp := current.timestamp,
           bar_index := i, is_leading := false, is_broken := false }
  else none

/-- Embedded `_identify_swings`: neighbour-window swing detection over interior bars,
in chronological order. -/
def identifySwings (bars : List TDBar) : List Swing :=
  if bars.length < 3 then []
  else (List.range' 1 (bars.length - 2)).filterMap (classifyBar bars)

end TrendDefinition

/-! ## Strength/weakness scorer (`strength_weakness.py`), projection part -/

/-- The `ProjectionAnalysis` TypedDict (the `description` string, built from the
numeric fields by `_describe_projection`, is omitted). -/
structure ProjectionAnalysis where
  score : ℚ
  ratio : ℚ
  rating : String
  prior_swing_distance : ℚ
  current_projection : ℚ
deriving DecidableEq, Repr

namespace StrengthWeakness

/-- Embedded `_analyze_projection`: ratio of the current swing projection distance
to the average of the last three prior swing distances, scored by branch.
`prior_swings` holds the `"distance"` entries, `current_swing_price` the
current swing price field, `last_close` the final bar close (`0` when
there are no bars). -/
def analyzeProjection (prior_swings : List ℚ) (current_swing_price last_close : ℚ) :
    ProjectionAnalysis :=
  if prior_swings = [] then
    { score := 50, ratio := 1, rating := "normal",
      prior_swing_distance := 0, current_projection := 0 }
  else
    let current_distance := |last_close - current_swing_price|
    let prior_distances := prior_swings.drop (prior_swings.length - 3)
    let avg_prior_distance :=
      if prior_distances = [] then 1
      else prior_distances.sum / prior_distances.length
    let ratio := if avg_prior_distance = 0 then 1 else current_distance / avg_prior_distance
    let score_rating : ℚ × String :=
      if ratio > 6 / 5 then (min 100 (ratio * 100 / (3 / 2)), "extending")
      else if ratio ≥ 4 / 5 then (ratio / (6 / 5) * 70 + 30, "normal")
      else (ratio * 50, "contracting")
    { score := round1 score_rating.1
      ratio := round2 ratio
      rating := score_rating.2
      prior_swing_distance := round4 avg_prior_distance
      current_projection := round4 current_distance }

end StrengthWeakness

/-! ## Setup scanner (`setup_scanner.py`) -/

namespace SetupScanner

/-- Embedded `_rate_setup_quality`: A/B/C quality rating. -/
def rateSetupQuality (probability_score : ℚ) (confluence_count : ℕ)
    (risk_reward_ratio : ℚ) (min_confluence : ℕ) : String :=
  if probability_score ≥ 80 ∧ confluence_count ≥ min_confluence + 1 ∧
      risk_reward_ratio ≥ 5 / 2 then "A"
  else if probability_score ≥ 70 ∧ confluence_count ≥ min_confluence ∧
      risk_reward_ratio ≥ 3 / 2 then "B"
  else "C"

/-- The decision fields of the `YTCSetup` record built by `_create_setup`
(identification and pass-through fields — `setup_id` (a UUID), `sr_level`,
`entry_zone`, `stop_loss`, `targets`, `trapped_trader_potential`,
`market_condition_alignment` — are copied verbatim from the arguments and
carry no logic). -/
structure YTCSetup where
  type : String
  direction : String
  probability_score : ℚ
  risk_reward_ratio : ℚ
  confluence_factors : List String
  ready_to_trade : Bool
  quality_rating : String
deriving DecidableEq, Repr

/-- Embedded `_create_setup`: rounds the scores, rates quality and computes
`ready_to_trade` from the scanner configuration `min_confluence_factors` and
`min_risk_reward` configuration. -/
def createSetup (setup_type direction : String) (probability_score : ℚ)
    (risk_reward_ratio : ℚ) (confluence_factors : List String)
    (min_confluence : ℕ) (min_risk_reward : ℚ) : YTCSetup :=
  { type := setup_type
    direction := direction
    probability_score := round1 probability_score
    risk_reward_ratio := round2 risk_reward_ratio
    confluence_factors := confluence_factors
    ready_to_trade :=
      decide (confluence_factors.length ≥ min_confluence) &&
      decide (risk_reward_ratio ≥ min_risk_reward) &&
      decide (probability_score ≥ 65)
    quality_rating :=
      rateSetupQuality probability_score confluence_factors.length
        risk_reward_ratio min_confluence }

/-- Embedded `_has_breakout_bar`: a bar is a breakout bar iff its close is above or
below the S/R level price. -/
def hasBreakoutBar (bar : Bar) (level_price : ℚ) : Bool :=
  decide (bar.close > level_price) || decide (bar.close < level_price)

end SetupScanner

/-! ## Concrete fixtures used by the claim theorems and witnesses -/

/-- An outside bar: its high exceeds the highs of both neighbours and its
low undercuts the lows of both neighbours. -/
def outsideBars : List Bar :=
  [{ open_price := 9, high := 10, low := 9, close := 9 },
   { open_price := 9, high := 20, low := 1, close := 9 },
   { open_price := 9, high := 10, low := 9, close := 9 }]

/-- Three bars with a swing high at index 1 (highs 10/20/10, lows level). -/
def swingHighBars : List TDBar :=
  [{ high := 10, low := 9, timestamp := "t0" },
   { high := 20, low := 9, timestamp := "t1" },
   { high := 10, low := 9, timestamp := "t2" }]

/-- The swing that `_identify_swings` reports on `swingHighBars`. -/
def swingHighAt1 : Swing :=
  { type := "swing_high", price := 20, timestamp := "t1", bar_index := 1,
    is_leading := false, is_broken := false }

/-- A single flat bar: enough for the dataframe to be non-empty, far too
few for the `2 * N + 1 = 7` bars the swing window needs. -/
def oneBar : List Bar :=
  [{ open_price := 100, high := 100, low := 100, close := 100 }]

/-- Eleven bars with swing lows at index 3 (low 90) and index 7 (low 104)
and a swing high at index 3 (high 140), window `N = 3`.  With current price
100, the support zone at 104 sits *above* the price. -/
def bars11 : List Bar :=
  [{ open_price := 50, high := 120, low := 110, close := 50 },
   { open_price := 50, high := 120, low := 110, close := 50 },
   { open_price := 50, high := 120, low := 110, close := 50 },
   { open_price := 50, high := 140, low := 90, close := 50 },
   { open_price := 50, high := 120, low := 110, close := 50 },
   { open_price := 50, high := 120, low := 110, close := 50 },
   { open_price := 50, high := 120, low := 110, close := 50 },
   { open_price := 50, high := 141, low := 104, close := 50 },
   { open_price := 50, high := 142, low := 111, close := 50 },
   { open_price := 50, high := 143, low := 111, close := 50 },
   { open_price := 50, high := 144, low := 111, close := 50 }]

/-- Seven bars with one swing high (index 3, high 16) and one swing low
(index 3, low 2), window `N = 3`, for the C5 witness. -/
def barsW7 : List Bar :=
  [{ open_price := 6, high := 10, low := 5, close := 6 },
   { open_price := 6, high := 10, low := 5, close := 6 },
   { open_price := 6, high := 10, low := 5, close := 6 },
   { open_price := 6, high := 16, low := 2, close := 6 },
   { open_price := 6, high := 10, low := 5, close := 6 },
   { open_price := 6, high := 10, low := 5, close := 6 },
   { open_price := 6, high := 10, low := 5, close := 6 }]

/-- A long position whose stop (98.504) is not a whole number of cents, as
`manage()` never produces but a caller may supply. -/
def nonCentPos : TradePosition :=
  { trade_id := "C", entry_price := 100, stop_loss := 98504 / 1000,
    take_profit := 110, position_size := 10, position_value := 1000,
    entry_type := .long, setup_type := "TST", risk_reward_ratio := 2 }

/-- A cent-aligned long position for the C1 witness. -/
def witnessPos : TradePosition :=
  { trade_id := "W", entry_price := 100, stop_loss := 95, take_profit := 110,
    position_size := 10, position_value := 1000, entry_type := .long,
    setup_type := "TST", risk_reward_ratio := 2 }

/-! # Claims -/

theorem round_mono {x y : ℚ} (h : x ≤ y) : (round x : ℤ) ≤ round y := by
  rw [round_eq, round_eq]
  exact Int.floor_le_floor (by linarith)

theorem roundTo_mono (n : ℕ) {x y : ℚ} (h : x ≤ y) : roundTo n x ≤ roundTo n y := by
  unfold roundTo
  have hp : (0 : ℚ) < 10 ^ n := by positivity
  have := round_mono (x := x * 10 ^ n) (y := y * 10 ^ n)
    (by exact mul_le_mul_of_nonneg_right h (le_of_lt hp))
  exact div_le_div_of_nonneg_right (by exact_mod_cast this) hp.le

theorem round2_centAligned (x : ℚ) : CentAligned (round2 x) := by
  exact ⟨round (x * 10 ^ 2), by norm_num [round2, roundTo]⟩

theorem round2_of_centAligned {x : ℚ} (h : CentAligned x) : round2 x = x := by
  obtain ⟨k, rfl⟩ := h
  have : (k : ℚ) / 100 * 10 ^ 2 = (k : ℚ) := by ring
  rw [round2, roundTo, this, round_intCast]
  norm_num


/-- Claim C6. A setup produced by `_create_setup` has `ready_to_trade` true
iff the number of confluence factors is at least `min_confluence_factors`,
the risk/reward ratio is at least `min_risk_reward`, and the probability
score is at least 65; in particular it is false whenever the risk/reward
ratio is below `min_risk_reward`, regardless of the probability score. -/
theorem createSetup_ready_to_trade_iff (setup_type direction : String)
    (probability_score risk_reward_ratio : ℚ) (confluence_factors : List String)
    (min_confluence : ℕ) (min_risk_reward : ℚ) :
    (SetupScanner.createSetup setup_type direction probability_score
        risk_reward_ratio confluence_factors min_confluence min_risk_reward).ready_to_trade
      = true ↔
    (confluence_factors.length ≥ min_confluence ∧ risk_reward_ratio ≥ min_risk_reward ∧
      probability_score ≥ 65) := by
  simp [SetupScanner.createSetup, Bool.and_eq_true, decide_eq_true_eq, and_assoc]

/-- Claim C9. `_has_breakout_bar` returns true iff the close of the bar differs
from the level price: every bar whose close is not exactly the S/R level
counts as a breakout bar. -/
theorem hasBreakoutBar_iff_close_ne (bar : Bar) (level_price : ℚ) :
    SetupScanner.hasBreakoutBar bar level_price = true ↔ bar.close ≠ level_price := by
  simp only [SetupScanner.hasBreakoutBar, Bool.or_eq_true, decide_eq_true_eq]
  rw [ne_iff_lt_or_gt, or_comm]

/-- Claim C10. For a positive balance and positive entry price, the size
computed by `_calculate_position_size` keeps `position_value = size * entry`
within 5% of the account balance, so the `_validate_position` rejection
branch `position_value > account_balance` cannot fire on it. -/
theorem calculatePositionSize_value_within_cap (entry_price stop_loss max_loss
    account_balance : ℚ) (hb : 0 < account_balance) (he : 0 < entry_price) :
    EntryExecution.calculatePositionSize entry_price stop_loss max_loss account_balance
        * entry_price ≤ account_balance * (5 / 100) ∧
    ¬(EntryExecution.calculatePositionSize entry_price stop_loss max_loss account_balance
        * entry_price > account_balance) := by
  have hcap : EntryExecution.calculatePositionSize entry_price stop_loss max_loss
      account_balance * entry_price ≤ account_balance * (5 / 100) := by
    simp only [EntryExecution.calculatePositionSize]
    have hmax : (0 : ℚ) ≤ account_balance * (5 / 100) / entry_price := by positivity
    split_ifs with h1 h2 h3 h4 h5
    · nlinarith
    · nlinarith
    · -- long direction, capped: `max 0 (maxV / entry) * entry = maxV`
      rw [max_eq_right hmax, div_mul_cancel₀ _ (ne_of_gt he)]
    · -- long direction, uncapped: `size * entry ≤ maxV` from the failed cap test
      push_neg at h4
      rcases le_or_lt (max_loss / (entry_price - stop_loss)) 0 with hle | hlt
      · rw [max_eq_left hle]; nlinarith
      · rw [max_eq_right hlt.le]; exact h4
    · -- short direction, capped
      rw [max_eq_right hmax, div_mul_cancel₀ _ (ne_of_gt he)]
    · -- short direction, uncapped
      push_neg at h5
      rcases le_or_lt (max_loss / (stop_loss - entry_price)) 0 with hle | hlt
      · rw [max_eq_left hle]; nlinarith
      · rw [max_eq_right hlt.le]; exact h5
  refine ⟨hcap, ?_⟩
  push_neg
  calc EntryExecution.calculatePositionSize entry_price stop_loss max_loss account_balance
      * entry_price ≤ account_balance * (5 / 100) := hcap
    _ ≤ account_balance := by nlinarith

/-- Witness for C10 at entry 100, stop 95, risk budget 500, balance 100000:
the computed value 5000 is exactly the 5% cap and below the balance. -/
theorem calculatePositionSize_value_within_cap_witness :
    EntryExecution.calculatePositionSize 100 95 500 100000 * 100 ≤ 100000 * (5 / 100) ∧
    ¬(EntryExecution.calculatePositionSize 100 95 500 100000 * 100 > 100000) :=
  calculatePositionSize_value_within_cap 100 95 500 100000 (by norm_num) (by norm_num)

/-- Claim C7. Closing a position with the external reason left at `"manual"`,
a positive take profit and an exit price strictly within 0.01 of it yields a
trade result whose `exit_reason` is `"Take Profit Hit"`, whatever the
exit-signal flag: take-profit proximity outranks the signal flag. -/
theorem exit_reason_take_profit_priority (pos : TradePosition) (exit_signal : Bool)
    (exit_price : ℚ) (hentry : 0 < pos.entry_price) (hsize : 0 < pos.position_size)
    (hexit : 0 < exit_price) (htp : 0 < pos.take_profit)
    (hnear : |exit_price - pos.take_profit| < 1 / 100) :
    (ExitExecution.calculateTradeResult pos "manual" exit_signal exit_price).map
        (·.exit_reason) = some "Take Profit Hit" := by
  have hr : ExitExecution.determineExitReason "manual" exit_signal
      pos.take_profit pos.stop_loss exit_price = "Take Profit Hit" := by
    rw [ExitExecution.determineExitReason, if_neg (by simp), if_pos ⟨htp, hnear⟩]
  rw [ExitExecution.calculateTradeResult, if_neg (by push_neg; exact ⟨hentry, hsize, hexit⟩)]
  simp [hr]

/-- Witness for C7: a long closed at exactly its take profit with the exit
signal flagged still reports `"Take Profit Hit"`. -/
theorem exit_reason_take_profit_priority_witness :
    (ExitExecution.calculateTradeResult
        { trade_id := "T", entry_price := 100, stop_loss := 95, take_profit := 110,
          position_size := 10, position_value := 1000, entry_type := .long,
          setup_type := "TST", risk_reward_ratio := 2 } "manual" true 110).map
      (·.exit_reason) = some "Take Profit Hit" :=
  exit_reason_take_profit_priority _ true 110 (by norm_num) (by norm_num) (by norm_num)
    (by norm_num) (by norm_num)

/-- Claim C2, counterexample. With every config value left unstated the
account balance defaults to 100000, whose 5% cap (5000) binds on the
10000-value raw position: entry 100, stop 95, risk budget 500 yields size
50, not the claimed 100 (the sizing test of the repository documents the
same capping at this balance). -/
theorem position_size_roundtrip_counterexample :
    EntryExecution.calculatePositionSize 100 95 500 100000 = 50 ∧ (50 : ℚ) ≠ 100 := by
  constructor
  · norm_num [EntryExecution.calculatePositionSize]
  · norm_num

/-- Claim C2, amended. When the account balance is large enough that the 5%
cap does not bind (5% of balance at least 10000, e.g. balance 200000),
opening a long at entry 100, stop 95, target 110 with risk budget 500 sizes
the position at `500 / 5 = 100`, and closing that position at exit price
110 yields `gross_pnl = (110 - 100) * 100 = 1000` and `pnl_percent = 10`. -/
theorem position_size_roundtrip_amended (account_balance : ℚ)
    (hcap : 10000 ≤ account_balance * (5 / 100)) :
    EntryExecution.calculatePositionSize 100 95 500 account_balance = 100 ∧
    (ExitExecution.calculateTradeResult
        { trade_id := "T", entry_price := 100, stop_loss := 95, take_profit := 110,
          position_size := EntryExecution.calculatePositionSize 100 95 500 account_balance,
          position_value :=
            EntryExecution.calculatePositionSize 100 95 500 account_balance * 100,
          entry_type := .long, setup_type := "TST", risk_reward_ratio := 2 }
        "manual" false 110).map (fun r => (r.gross_pnl, r.pnl_percent))
      = some (1000, 10) := by
  have hsize : EntryExecution.calculatePositionSize 100 95 500 account_balance = 100 := by
    simp only [EntryExecution.calculatePositionSize]
    rw [if_neg (by norm_num), if_neg (by norm_num), if_pos (by norm_num : (100 : ℚ) > 95)]
    rw [if_neg (by push_neg; norm_num; linarith)]
    norm_num
  refine ⟨hsize, ?_⟩
  rw [hsize]
  rw [ExitExecution.calculateTradeResult, if_neg (by norm_num)]
  norm_num [ExitExecution.determineExitReason, round2, round4, roundTo, round_eq]

/-- Witness for C2 (amended) at balance 200000, where 5% of the balance is
exactly the raw position value 10000. -/
theorem position_size_roundtrip_amended_witness :
    EntryExecution.calculatePositionSize 100 95 500 200000 = 100 ∧
    (ExitExecution.calculateTradeResult
        { trade_id := "T", entry_price := 100, stop_loss := 95, take_profit := 110,
          position_size := EntryExecution.calculatePositionSize 100 95 500 200000,
          position_value := EntryExecution.calculatePositionSize 100 95 500 200000 * 100,
          entry_type := .long, setup_type := "TST", risk_reward_ratio := 2 }
        "manual" false 110).map (fun r => (r.gross_pnl, r.pnl_percent))
      = some (1000, 10) :=
  position_size_roundtrip_amended 200000 (by norm_num)

/-- Claim C4. `_analyze_projection` on prior swing distances `[10, 10, 10]`,
current swing price 0 and last close 10 computes ratio `10 / 10 = 1`, inside
the claimed `[0.8, 1.2]` "normal" band — but the computed score
`round((1 / 1.2) * 70 + 30, 1) = 88.3` falls outside the `[40, 70]` range
stated by the claim and by the docstring of the function and its `Scale to
40-70` comment (`(ratio / 1.2) * 70 + 30` spans `[76.7, 100]` on that
band). -/
theorem analyzeProjection_normal_score_exceeds_70 :
    (StrengthWeakness.analyzeProjection [10, 10, 10] 0 10).rating = "normal" ∧
    (StrengthWeakness.analyzeProjection [10, 10, 10] 0 10).ratio = 1 ∧
    (StrengthWeakness.analyzeProjection [10, 10, 10] 0 10).score = 883 / 10 ∧
    ¬((StrengthWeakness.analyzeProjection [10, 10, 10] 0 10).score ≤ 70) := by
  have h : StrengthWeakness.analyzeProjection [10, 10, 10] 0 10 =
      { score := 883 / 10, ratio := 1, rating := "normal",
        prior_swing_distance := 10, current_projection := 10 } := by
    have hne : ([10, 10, 10] : List ℚ) ≠ [] := by simp
    simp only [StrengthWeakness.analyzeProjection]
    rw [if_neg hne]
    norm_num [hne, round1, round2, round4, roundTo, round_eq]
  rw [h]
  norm_num

/-- Claim C8, counterexample. With window `N = 1`, bar index 1 of
`outsideBars` satisfies the swing-high predicate on the highs *and* the
swing-low predicate on the lows simultaneously: `_detect_swing_points`
reports it both as a swing high (price 20) and as a swing low (price 1). -/
theorem swing_high_and_low_counterexample :
    (MarketStructure.detectSwingPoints outsideBars 1).1 = [(1, 20)] ∧
    (MarketStructure.detectSwingPoints outsideBars 1).2 = [(1, 1)] := by
  constructor <;>
  · simp only [MarketStructure.detectSwingPoints, MarketStructure.relExtrema, outsideBars,
      List.map_cons, List.map_nil, List.length_cons, List.length_nil, List.range_succ,
      List.range_zero, List.filter_append, List.filter_cons, List.filter_nil,
      List.all_cons, List.all_nil]
    simp [MarketStructure.clipIdx, min_def, max_def] <;> norm_num

/-- Helper: `classifyBar` stamps the loop index into the swing it returns. -/
theorem classifyBar_bar_index {bars : List TDBar} {i : ℕ} {s : Swing}
    (h : TrendDefinition.classifyBar bars i = some s) : s.bar_index = i := by
  simp only [TrendDefinition.classifyBar] at h
  split_ifs at h
  · rw [Option.some_inj] at h; rw [← h]
  · rw [Option.some_inj] at h; rw [← h]

/-- Claim C8, amended. The two swing predicates are evaluated on different
series (highs for swing highs, lows for swing lows), so an outside bar can
satisfy both at once; but `TrendDefinition._identify_swings` classifies each
bar index with at most one swing type, because its swing-low test is an
`elif` behind the swing-high test: any two swings it reports for the same
bar index have the same type (indeed are the same swing). -/
theorem identifySwings_unique_type (bars : List TDBar) (s t : Swing)
    (hs : s ∈ TrendDefinition.identifySwings bars)
    (ht : t ∈ TrendDefinition.identifySwings bars)
    (hidx : s.bar_index = t.bar_index) : s.type = t.type := by
  unfold TrendDefinition.identifySwings at hs ht
  split_ifs at hs ht with hlen
  · simp at hs
  · rw [List.mem_filterMap] at hs ht
    obtain ⟨i, _, hi⟩ := hs
    obtain ⟨j, _, hj⟩ := ht
    have hij : i = j := by
      rw [← classifyBar_bar_index hi, ← classifyBar_bar_index hj, hidx]
    rw [hij, hj] at hi
    rw [Option.some_inj] at hi
    rw [hi]

/-- Witness for C8 (amended): applying the uniqueness theorem to the swing
reported on `swingHighBars`. -/
theorem identifySwings_unique_type_witness :
    swingHighAt1 ∈ TrendDefinition.identifySwings swingHighBars ∧
    swingHighAt1.type = swingHighAt1.type := by
  have hmem : swingHighAt1 ∈ TrendDefinition.identifySwings swingHighBars := by
    have h : TrendDefinition.identifySwings swingHighBars = [swingHighAt1] := by
      simp only [TrendDefinition.identifySwings, swingHighBars, List.length_cons,
        List.length_nil]
      rw [if_neg (by norm_num)]
      simp only [show (3 - 2 : ℕ) = 1 from rfl, List.range']
      simp only [List.filterMap_cons, List.filterMap_nil, TrendDefinition.classifyBar]
      simp [swingHighAt1]
      norm_num
    rw [h]
    exact List.mem_singleton.mpr rfl
  exact ⟨hmem,
    identifySwings_unique_type swingHighBars swingHighAt1 swingHighAt1 hmem hmem rfl⟩

/-- Claim C3, counterexample. One bar (fewer than `2 * 3 + 1`) with a positive
current price does *not* produce the claimed incomplete result:
`execute` reports `analysis_complete = true` and locates the price at
`"breakout"`, not `"unknown"` — only an *empty* dataframe or a non-positive
price triggers `_empty_output`. -/
theorem execute_few_bars_counterexample :
    (MarketStructure.execute oneBar 3 (1 / 2) 100).analysis_complete = true ∧
    (MarketStructure.execute oneBar 3 (1 / 2) 100).support_zones = [] ∧
    (MarketStructure.execute oneBar 3 (1 / 2) 100).resistance_zones = [] ∧
    (MarketStructure.execute oneBar 3 (1 / 2) 100).current_context.price_location
      = "breakout" := by
  have hd : MarketStructure.detectSwingPoints oneBar 3 = ([], []) := by
    rw [MarketStructure.detectSwingPoints, if_pos (by simp [oneBar])]
  have hz : ∀ t, MarketStructure.calculateZones oneBar [] t (1 / 2) = [] := fun t => by
    rw [MarketStructure.calculateZones, if_pos rfl]
  simp only [MarketStructure.execute, hd, hz]
  rw [if_neg (by simp [oneBar])]
  refine ⟨rfl, rfl, rfl, ?_⟩
  simp [MarketStructure.calculateCurrentContext]

/-- Claim C3, amended. With fewer than `2 * N + 1` bars the zone lists are
always empty, but the result is the explicit incomplete record
(`analysis_complete = false`, location `"unknown"`) *only* when the
dataframe is empty or the current price is non-positive; a non-empty but
too-short dataframe completes normally (`analysis_complete = true`) with
empty zones and location `"breakout"`.  No exception is raised in either
case (the embedding is total). -/
theorem execute_few_bars_amended (df : List Bar) (n : ℕ) (pct price : ℚ)
    (hlen : df.length < n * 2 + 1) :
    (MarketStructure.execute df n pct price).support_zones = [] ∧
    (MarketStructure.execute df n pct price).resistance_zones = [] ∧
    ((MarketStructure.execute df n pct price).analysis_complete = true ↔
      df ≠ [] ∧ 0 < price) ∧
    (MarketStructure.execute df n pct price).current_context.price_location =
      (if df = [] ∨ price ≤ 0 then "unknown" else "breakout") := by
  by_cases hg : df.length = 0 ∨ price ≤ 0
  · have hg' : df = [] ∨ price ≤ 0 := hg.imp List.length_eq_zero.mp id
    have hx : MarketStructure.execute df n pct price = MarketStructure.emptyOutput := by
      rw [MarketStructure.execute, if_pos hg]
    rw [hx]
    refine ⟨rfl, rfl, ?_, ?_⟩
    · constructor
      · intro hc
        exact absurd hc (by simp [MarketStructure.emptyOutput])
      · rintro ⟨h1, h2⟩
        rcases hg' with h | h
        · exact absurd h h1
        · exact absurd h2 (not_lt.mpr h)
    · rw [if_pos hg']
      rfl
  · push_neg at hg
    have hne : df ≠ [] := fun h => hg.1 (by rw [h]; rfl)
    have hg' : ¬(df = [] ∨ price ≤ 0) := by
      push_neg
      exact ⟨hne, hg.2⟩
    have hd : MarketStructure.detectSwingPoints df n = ([], []) := by
      rw [MarketStructure.detectSwingPoints, if_pos hlen]
    have hz : ∀ t, MarketStructure.calculateZones df [] t pct = [] := fun t => by
      rw [MarketStructure.calculateZones, if_pos rfl]
    simp only [MarketStructure.execute, hd, hz]
    rw [if_neg (by push_neg; exact ⟨hg.1, hg.2⟩)]
    refine ⟨by trivial, by trivial, by simp [hg.2, hne], ?_⟩
    rw [if_neg hg']
    simp [MarketStructure.calculateCurrentContext]

/-- Witness for C3 (amended) on the empty dataframe with `n = 0`. -/
theorem execute_few_bars_amended_witness :
    (MarketStructure.execute [] 0 1 1).support_zones = [] ∧
    (MarketStructure.execute [] 0 1 1).resistance_zones = [] ∧
    ((MarketStructure.execute [] 0 1 1).analysis_complete = true ↔
      ([] : List Bar) ≠ [] ∧ (0 : ℚ) < 1) ∧
    (MarketStructure.execute [] 0 1 1).current_context.price_location =
      (if ([] : List Bar) = [] ∨ (1 : ℚ) ≤ 0 then "unknown" else "breakout") :=
  execute_few_bars_amended [] 0 1 1 (by norm_num)

/-- Zone lists built by `_calculate_zones` are sorted ascending by level. -/
theorem calculateZones_sorted (df : List Bar) (pts : List (ℕ × ℚ)) (t : String)
    (pct : ℚ) :
    List.Sorted MarketStructure.zoneLE (MarketStructure.calculateZones df pts t pct) := by
  rw [MarketStructure.calculateZones]
  split_ifs
  · exact List.sorted_nil
  · exact List.sorted_insertionSort _ _

/-- Every zone level produced by `_calculate_zones` is a whole number of
cents (it went through `round(level, 2)`). -/
theorem calculateZones_level_cent (df : List Bar) (pts : List (ℕ × ℚ)) (t : String)
    (pct : ℚ) :
    ∀ z ∈ MarketStructure.calculateZones df pts t pct, CentAligned z.level := by
  intro z hz
  rw [MarketStructure.calculateZones] at hz
  split_ifs at hz
  · simp at hz
  · rw [(List.perm_insertionSort _ _).mem_iff, List.mem_map] at hz
    obtain ⟨pt, _, rfl⟩ := hz
    exact round2_centAligned _

/-- In a level-sorted zone list, every level is at most the level of the
last zone. -/
theorem sorted_level_le_getLast :
    ∀ {l : List SRZone}, List.Sorted MarketStructure.zoneLE l → (h : l ≠ []) →
      ∀ z ∈ l, z.level ≤ (l.getLast h).level := by
  intro l
  induction l with
  | nil => intro _ h; exact absurd rfl h
  | cons a t ih =>
    intro hl h z hz
    rw [List.sorted_cons] at hl
    cases t with
    | nil =>
      rw [List.mem_singleton] at hz
      rw [hz, List.getLast_singleton]
    | cons b t' =>
      rw [List.getLast_cons (List.cons_ne_nil b t')]
      rcases List.mem_cons.mp hz with rfl | hz'
      · exact hl.1 _ (List.getLast_mem (List.cons_ne_nil b t'))
      · exact ih hl.2 (List.cons_ne_nil b t') z hz'

/-- In a level-sorted zone list, the head's level is a lower bound. -/
theorem sorted_head_level_le {l : List SRZone}
    (hl : List.Sorted MarketStructure.zoneLE l) (h : l ≠ []) :
    ∀ z ∈ l, (l.head h).level ≤ z.level := by
  cases l with
  | nil => exact absurd rfl h
  | cons a t =>
    intro z hz
    rw [List.sorted_cons] at hl
    rcases List.mem_cons.mp hz with rfl | hz'
    · exact le_refl _
    · exact hl.1 z hz'

/-- Claim C5, amended. Whenever a market-structure result has at least one
support and one resistance zone, `nearest_support` is the level of the
*highest support zone overall* (the last of the ascending-sorted list) and
`nearest_resistance` the level of the *lowest resistance zone overall* (the
first of the list) — the code does not restrict to zones strictly below or
above the current price — and the location label is chosen by the 1% band
rule applied to those two levels. -/
theorem execute_nearest_levels_amended (df : List Bar) (n : ℕ) (pct price : ℚ)
    (hS : (MarketStructure.execute df n pct price).support_zones ≠ [])
    (hR : (MarketStructure.execute df n pct price).resistance_zones ≠ []) :
    ∃ zs zr : SRZone,
      (MarketStructure.execute df n pct price).support_zones.getLast? = some zs ∧
      (MarketStructure.execute df n pct price).resistance_zones.head? = some zr ∧
      (∀ z ∈ (MarketStructure.execute df n pct price).support_zones,
        z.level ≤ zs.level) ∧
      (∀ z ∈ (MarketStructure.execute df n pct price).resistance_zones,
        zr.level ≤ z.level) ∧
      (MarketStructure.execute df n pct price).current_context.nearest_support
        = zs.level ∧
      (MarketStructure.execute df n pct price).current_context.nearest_resistance
        = zr.level ∧
      (MarketStructure.execute df n pct price).current_context.price_location =
        (if zr.level > 0 ∧ price ≥ zr.level * (99 / 100) then "at_resistance"
         else if zs.level > 0 ∧ price ≤ zs.level * (101 / 100) then "at_support"
         else if zs.level > 0 ∧ zr.level > 0 then "in_range"
         else "breakout") := by
  by_cases hg : df.length = 0 ∨ price ≤ 0
  · exfalso
    apply hS
    rw [MarketStructure.execute, if_pos hg]
    rfl
  · rcases hpair : MarketStructure.detectSwingPoints df n with ⟨sh, sl⟩
    have hex : MarketStructure.execute df n pct price =
        { analysis_complete := true
          trend_structure := MarketStructure.analyzeTrendStructure df n
          resistance_zones := MarketStructure.calculateZones df sh "resistance" pct
          support_zones := MarketStructure.calculateZones df sl "support" pct
          prior_session := MarketStructure.priorSessionLevels df
          current_context := MarketStructure.calculateCurrentContext
            (MarketStructure.calculateZones df sl "support" pct)
            (MarketStructure.calculateZones df sh "resistance" pct) price } := by
      rw [MarketStructure.execute, if_neg hg, hpair]
    rw [hex] at hS hR ⊢
    simp only at hS hR ⊢
    have hS' : MarketStructure.calculateZones df sl "support" pct ≠ [] := hS
    have hR' : MarketStructure.calculateZones df sh "resistance" pct ≠ [] := hR
    have hsortS := calculateZones_sorted df sl "support" pct
    have hsortR := calculateZones_sorted df sh "resistance" pct
    have hlast := List.getLast?_eq_getLast _ hS'
    have hhead := List.head?_eq_head hR'
    refine ⟨(MarketStructure.calculateZones df sl "support" pct).getLast hS',
      (MarketStructure.calculateZones df sh "resistance" pct).head hR',
      hlast, hhead, sorted_level_le_getLast hsortS hS', sorted_head_level_le hsortR hR',
      ?_, ?_, ?_⟩
    · simp only [MarketStructure.calculateCurrentContext, hlast, Option.map_some,
        Option.getD_some]
      exact round2_of_centAligned
        (calculateZones_level_cent df sl "support" pct _ (List.getLast_mem hS'))
    · simp only [MarketStructure.calculateCurrentContext, hhead, Option.map_some,
        Option.getD_some]
      exact round2_of_centAligned
        (calculateZones_level_cent df sh "resistance" pct _ (List.head_mem hR'))
    · have hns : ((MarketStructure.calculateZones df sl "support" pct).getLast?.map
          (fun z => z.level)).getD 0
          = ((MarketStructure.calculateZones df sl "support" pct).getLast hS').level := by
        rw [hlast]; rfl
      have hnr : ((MarketStructure.calculateZones df sh "resistance" pct).head?.map
          (fun z => z.level)).getD 0
          = ((MarketStructure.calculateZones df sh "resistance" pct).head hR').level := by
        rw [hhead]; rfl
      simp only [MarketStructure.calculateCurrentContext, hns, hnr]

/-- Claim C5, counterexample. On `bars11` at current price 100 the support
zones are `[90, 104]`, and the highest support zone *strictly below* the
price is 90 — but the code reports `nearest_support = 104`, the highest
support zone overall, which is not below the current price at all. -/
theorem nearest_support_counterexample :
    (MarketStructure.execute bars11 3 (1 / 2) 100).support_zones.map (·.level)
      = [90, 104] ∧
    (MarketStructure.execute bars11 3 (1 / 2) 100).current_context.nearest_support
      = 104 ∧
    ¬((MarketStructure.execute bars11 3 (1 / 2) 100).current_context.nearest_support
      < 100) := by
  have hd : MarketStructure.detectSwingPoints bars11 3 =
      ([(3, 140)], [(3, 90), (7, 104)]) := by
    simp only [MarketStructure.detectSwingPoints, MarketStructure.relExtrema, bars11,
      List.map_cons, List.map_nil, List.length_cons, List.length_nil, List.range_succ,
      List.range_zero, List.filter_append, List.filter_cons, List.filter_nil,
      List.all_cons, List.all_nil]
    simp [MarketStructure.clipIdx, min_def, max_def] <;> norm_num
  have hzS : MarketStructure.calculateZones bars11 [(3, 90), (7, 104)] "support"
      (1 / 2) =
      [{ level := 90, strength := 3, type := "swing_" ++ "support".dropRight 1,
         touches := 0, zone_range := (8955 / 100, 9045 / 100) },
       { level := 104, strength := 3, type := "swing_" ++ "support".dropRight 1,
         touches := 0, zone_range := (10348 / 100, 10452 / 100) }] := by
    simp only [MarketStructure.calculateZones]
    rw [if_neg (by simp)]
    simp only [List.length_cons, List.length_nil, List.drop, List.map_cons,
      List.map_nil, MarketStructure.countTouches, bars11, List.filter_cons,
      List.filter_nil]
    norm_num [List.insertionSort, List.orderedInsert, MarketStructure.zoneLE,
      round2, roundTo, round_eq]
  have hzR : MarketStructure.calculateZones bars11 [(3, 140)] "resistance"
      (1 / 2) =
      [{ level := 140, strength := 3, type := "swing_" ++ "resistance".dropRight 1,
         touches := 0, zone_range := (1393 / 10, 1407 / 10) }] := by
    simp only [MarketStructure.calculateZones]
    rw [if_neg (by simp)]
    simp only [List.length_cons, List.length_nil, List.drop, List.map_cons,
      List.map_nil, MarketStructure.countTouches, bars11, List.filter_cons,
      List.filter_nil]
    norm_num [List.insertionSort, List.orderedInsert, MarketStructure.zoneLE,
      round2, roundTo, round_eq]
  have hex : MarketStructure.execute bars11 3 (1 / 2) 100 =
      { analysis_complete := true
        trend_structure := MarketStructure.analyzeTrendStructure bars11 3
        resistance_zones := MarketStructure.calculateZones bars11 [(3, 140)]
          "resistance" (1 / 2)
        support_zones := MarketStructure.calculateZones bars11 [(3, 90), (7, 104)]
          "support" (1 / 2)
        prior_session := MarketStructure.priorSessionLevels bars11
        current_context := MarketStructure.calculateCurrentContext
          (MarketStructure.calculateZones bars11 [(3, 90), (7, 104)] "support" (1 / 2))
          (MarketStructure.calculateZones bars11 [(3, 140)] "resistance" (1 / 2))
          100 } := by
    rw [MarketStructure.execute, if_neg (by norm_num [bars11]), hd]
  rw [hex]
  simp only [hzS, hzR]
  refine ⟨by norm_num, ?_, ?_⟩ <;>
  · simp only [MarketStructure.calculateCurrentContext, List.getLast?, List.head?,
      Option.map_some, Option.getD_some]
    norm_num [round2, roundTo, round_eq]

/-- Witness for C5 (amended) on `barsW7` at price 6: one support zone
(level 2) and one resistance zone (level 16) exist, so the theorem applies. -/
theorem execute_nearest_levels_amended_witness :
    ∃ zs zr : SRZone,
      (MarketStructure.execute barsW7 3 (1 / 2) 6).support_zones.getLast? = some zs ∧
      (MarketStructure.execute barsW7 3 (1 / 2) 6).resistance_zones.head? = some zr ∧
      (∀ z ∈ (MarketStructure.execute barsW7 3 (1 / 2) 6).support_zones,
        z.level ≤ zs.level) ∧
      (∀ z ∈ (MarketStructure.execute barsW7 3 (1 / 2) 6).resistance_zones,
        zr.level ≤ z.level) ∧
      (MarketStructure.execute barsW7 3 (1 / 2) 6).current_context.nearest_support
        = zs.level ∧
      (MarketStructure.execute barsW7 3 (1 / 2) 6).current_context.nearest_resistance
        = zr.level ∧
      (MarketStructure.execute barsW7 3 (1 / 2) 6).current_context.price_location =
        (if zr.level > 0 ∧ (6 : ℚ) ≥ zr.level * (99 / 100) then "at_resistance"
         else if zs.level > 0 ∧ (6 : ℚ) ≤ zs.level * (101 / 100) then "at_support"
         else if zs.level > 0 ∧ zr.level > 0 then "in_range"
         else "breakout") := by
  have hd : MarketStructure.detectSwingPoints barsW7 3 = ([(3, 16)], [(3, 2)]) := by
    simp only [MarketStructure.detectSwingPoints, MarketStructure.relExtrema, barsW7,
      List.map_cons, List.map_nil, List.length_cons, List.length_nil, List.range_succ,
      List.range_zero, List.filter_append, List.filter_cons, List.filter_nil,
      List.all_cons, List.all_nil]
    simp [MarketStructure.clipIdx, min_def, max_def] <;> norm_num
  have hex : MarketStructure.execute barsW7 3 (1 / 2) 6 =
      { analysis_complete := true
        trend_structure := MarketStructure.analyzeTrendStructure barsW7 3
        resistance_zones := MarketStructure.calculateZones barsW7 [(3, 16)]
          "resistance" (1 / 2)
        support_zones := MarketStructure.calculateZones barsW7 [(3, 2)]
          "support" (1 / 2)
        prior_session := MarketStructure.priorSessionLevels barsW7
        current_context := MarketStructure.calculateCurrentContext
          (MarketStructure.calculateZones barsW7 [(3, 2)] "support" (1 / 2))
          (MarketStructure.calculateZones barsW7 [(3, 16)] "resistance" (1 / 2))
          6 } := by
    rw [MarketStructure.execute, if_neg (by norm_num [barsW7]), hd]
  apply execute_nearest_levels_amended barsW7 3 (1 / 2) 6
  · rw [hex]
    simp only [MarketStructure.calculateZones]
    rw [if_neg (by simp)]
    simp
  · rw [hex]
    simp only [MarketStructure.calculateZones]
    rw [if_neg (by simp)]
    simp

/-- Claim C1, counterexample. One `manage()` call on the winning long
`nonCentPos` at price 100.2 (P&L 0.2%, below the breakeven threshold, so
the trailing branch fires) proposes stop
`round(max(100.2 * 0.98, 98.504), 2) = round(98.504, 2) = 98.50`, which is
*lower* than the current stop 98.504: the trailing adjustment itself moves
the stop in the adverse direction, because `round(·, 2)` rounds a stop that
is not on a cent boundary downward. -/
theorem trailing_stop_moves_down_counterexample :
    TradeManagement.manageNewStopLevel nonCentPos (501 / 5) = some (985 / 10) ∧
    (TradeManagement.applyManage nonCentPos (501 / 5)).stop_loss
      < nonCentPos.stop_loss := by
  have h : TradeManagement.manageNewStopLevel nonCentPos (501 / 5)
      = some (985 / 10) := by
    norm_num [TradeManagement.manageNewStopLevel, TradeManagement.isBreakevenEligible,
      TradeManagement.pnlPercent, TradeManagement.positionStatusLabel,
      TradeManagement.pnl, TradeManagement.calculateTrailingStop, nonCentPos,
      max_def, round2, roundTo, round_eq]
  refine ⟨h, ?_⟩
  rw [TradeManagement.applyManage, h]
  norm_num [nonCentPos]

/-- One `manage()` step on a long position with cent-aligned entry and stop
and stop at or below entry: the stop never decreases, stays at or below the
entry, and stays cent-aligned. -/
theorem applyManage_step_long (pos : TradePosition) (p : ℚ)
    (htype : pos.entry_type = .long) (he : 0 < pos.entry_price)
    (hce : CentAligned pos.entry_price) (hcs : CentAligned pos.stop_loss)
    (hse : pos.stop_loss ≤ pos.entry_price) :
    pos.stop_loss ≤ (TradeManagement.applyManage pos p).stop_loss ∧
    (TradeManagement.applyManage pos p).stop_loss ≤ pos.entry_price ∧
    CentAligned (TradeManagement.applyManage pos p).stop_loss := by
  unfold TradeManagement.applyManage TradeManagement.manageNewStopLevel
  by_cases hbe : TradeManagement.isBreakevenEligible pos p
  · rw [if_pos hbe]
    exact ⟨hse, le_refl _, hce⟩
  · rw [if_neg hbe]
    by_cases hw : TradeManagement.positionStatusLabel pos p = "winning"
    · rw [if_pos hw]
      have hp1 : TradeManagement.pnlPercent pos p < 1 := by
        simp only [TradeManagement.isBreakevenEligible, decide_eq_true_eq,
          not_le] at hbe
        exact hbe
      have hp1' : (p - pos.entry_price) / pos.entry_price * 100 < 1 := by
        rw [TradeManagement.pnlPercent, htype] at hp1
        exact hp1
      have hp2 : p - pos.entry_price < pos.entry_price * (1 / 100) := by
        rw [div_mul_eq_mul_div, div_lt_iff₀ he] at hp1'
        linarith
      have htrail : p * (1 - 2 / 100) ≤ pos.entry_price := by nlinarith
      have hmaxle : max (p * (1 - 2 / 100)) pos.stop_loss ≤ pos.entry_price :=
        max_le htrail hse
      have hts : TradeManagement.calculateTrailingStop pos p =
          round2 (max (p * (1 - 2 / 100)) pos.stop_loss) := by
        rw [TradeManagement.calculateTrailingStop, htype]
      simp only [Option.getD_some, hts]
      refine ⟨?_, ?_, round2_centAligned _⟩
      · calc pos.stop_loss = round2 pos.stop_loss := (round2_of_centAligned hcs).symm
          _ ≤ round2 (max (p * (1 - 2 / 100)) pos.stop_loss) :=
            roundTo_mono 2 (le_max_right _ _)
      · calc round2 (max (p * (1 - 2 / 100)) pos.stop_loss)
            ≤ round2 pos.entry_price := roundTo_mono 2 hmaxle
          _ = pos.entry_price := round2_of_centAligned hce
    · rw [if_neg hw]
      exact ⟨le_refl _, hse, hcs⟩

/-- One `manage()` step on a short position with cent-aligned entry and stop
and stop at or above entry: the stop never increases, stays at or above the
entry, and stays cent-aligned. -/
theorem applyManage_step_short (pos : TradePosition) (p : ℚ)
    (htype : pos.entry_type = .short) (he : 0 < pos.entry_price)
    (hce : CentAligned pos.entry_price) (hcs : CentAligned pos.stop_loss)
    (hse : pos.entry_price ≤ pos.stop_loss) :
    (TradeManagement.applyManage pos p).stop_loss ≤ pos.stop_loss ∧
    pos.entry_price ≤ (TradeManagement.applyManage pos p).stop_loss ∧
    CentAligned (TradeManagement.applyManage pos p).stop_loss := by
  unfold TradeManagement.applyManage TradeManagement.manageNewStopLevel
  by_cases hbe : TradeManagement.isBreakevenEligible pos p
  · rw [if_pos hbe]
    exact ⟨hse, le_refl _, hce⟩
  · rw [if_neg hbe]
    by_cases hw : TradeManagement.positionStatusLabel pos p = "winning"
    · rw [if_pos hw]
      have hp1 : TradeManagement.pnlPercent pos p < 1 := by
        simp only [TradeManagement.isBreakevenEligible, decide_eq_true_eq,
          not_le] at hbe
        exact hbe
      have hp1' : (pos.entry_price - p) / pos.entry_price * 100 < 1 := by
        rw [TradeManagement.pnlPercent, htype] at hp1
        exact hp1
      have hp2 : pos.entry_price - p < pos.entry_price * (1 / 100) := by
        rw [div_mul_eq_mul_div, div_lt_iff₀ he] at hp1'
        linarith
      have htrail : pos.entry_price ≤ p * (1 + 2 / 100) := by nlinarith
      have hminle : pos.entry_price ≤ min (p * (1 + 2 / 100)) pos.stop_loss :=
        le_min htrail hse
      have hts : TradeManagement.calculateTrailingStop pos p =
          round2 (min (p * (1 + 2 / 100)) pos.stop_loss) := by
        rw [TradeManagement.calculateTrailingStop, htype]
      simp only [Option.getD_some, hts]
      refine ⟨?_, ?_, round2_centAligned _⟩
      · calc round2 (min (p * (1 + 2 / 100)) pos.stop_loss)
            ≤ round2 pos.stop_loss := roundTo_mono 2 (min_le_right _ _)
          _ = pos.stop_loss := round2_of_centAligned hcs
      · calc pos.entry_price = round2 pos.entry_price :=
            (round2_of_centAligned hce).symm
          _ ≤ round2 (min (p * (1 + 2 / 100)) pos.stop_loss) :=
            roundTo_mono 2 hminle
    · rw [if_neg hw]
      exact ⟨le_refl _, hse, hcs⟩

/-- The first stop recorded by `stopTrace` is the current stop of the position. -/
theorem stopTrace_head (pos : TradePosition) (ps : List ℚ) :
    (TradeManagement.stopTrace pos ps).head? = some pos.stop_loss := by
  cases ps <;> rfl

/-- Claim C1, amended. Provided the entry price of the position is positive and its
entry and stop are whole numbers of cents (as `_create_position` guarantees
via `round(·, 2)`), with the stop on the favorable side of the entry, the
stop levels across *any* sequence of `manage()` calls (each applying the
proposed new stop) form a non-decreasing chain for a long position and a
non-increasing chain for a short position — no breakeven or trailing
adjustment moves the stop adversely.  Without the cent-alignment condition
the rounding in the trailing stop can lower the stop of a long
(see the counterexample). -/
theorem manage_stop_monotone_amended (pos : TradePosition) (prices : List ℚ)
    (he : 0 < pos.entry_price) (hce : CentAligned pos.entry_price)
    (hcs : CentAligned pos.stop_loss) :
    (pos.entry_type = .long → pos.stop_loss ≤ pos.entry_price →
      List.Chain' (· ≤ ·) (TradeManagement.stopTrace pos prices)) ∧
    (pos.entry_type = .short → pos.entry_price ≤ pos.stop_loss →
      List.Chain' (fun a b : ℚ => b ≤ a) (TradeManagement.stopTrace pos prices)) := by
  induction prices generalizing pos with
  | nil =>
    refine ⟨fun _ _ => ?_, fun _ _ => ?_⟩ <;> exact List.chain'_singleton _
  | cons p ps ih =>
    have hpe : (TradeManagement.applyManage pos p).entry_price = pos.entry_price := rfl
    have hpt : (TradeManagement.applyManage pos p).entry_type = pos.entry_type := rfl
    constructor
    · intro htype hse
      have hstep := applyManage_step_long pos p htype he hce hcs hse
      rw [TradeManagement.stopTrace]
      refine List.chain'_cons'.mpr ⟨?_, ?_⟩
      · intro b hb
        rw [stopTrace_head, Option.mem_def, Option.some_inj] at hb
        rw [← hb]
        exact hstep.1
      · exact (ih (TradeManagement.applyManage pos p) (hpe ▸ he) (hpe ▸ hce)
          hstep.2.2).1 (hpt ▸ htype) (hpe ▸ hstep.2.1)
    · intro htype hse
      have hstep := applyManage_step_short pos p htype he hce hcs hse
      rw [TradeManagement.stopTrace]
      refine List.chain'_cons'.mpr ⟨?_, ?_⟩
      · intro b hb
        rw [stopTrace_head, Option.mem_def, Option.some_inj] at hb
        rw [← hb]
        exact hstep.1
      · exact (ih (TradeManagement.applyManage pos p) (hpe ▸ he) (hpe ▸ hce)
          hstep.2.2).2 (hpt ▸ htype) (hpe ▸ hstep.2.1)

/-- Witness for C1 (amended): the stop chain of `witnessPos` over two rising
prices is non-decreasing. -/
theorem manage_stop_monotone_amended_witness :
    List.Chain' (· ≤ ·) (TradeManagement.stopTrace witnessPos [101, 102]) :=
  (manage_stop_monotone_amended witnessPos [101, 102] (by norm_num [witnessPos])
    ⟨10000, by norm_num [witnessPos]⟩ ⟨9500, by norm_num [witnessPos]⟩).1 rfl
    (by norm_num [witnessPos])
